import Mathlib

/-
  Shallow embedding of the subscription quota enforcement and
  billing-cycle logic of sokogate-subscription-model
  (services/subscription_service.py together with the data model of
  models/subscription.py).

  Modelling conventions:
  - SQLAlchemy Float columns are modelled as rationals, Integer columns
    as integers.
  - DateTime values are modelled as integers counting days since an
    arbitrary epoch; timedelta days n is the integer n and the SQL date
    truncation func.date is the identity at this granularity.
  - The database session is modelled as an explicit record of entity
    lists; a service method is a function threading that record, and a
    Python raise before a mutation returns the unchanged record together
    with an error value.  ORM object mutations are id-keyed list updates
    applied at the point in control flow where the Python statement runs.
  - External collaborators (payment charge and refund) are modelled as
    boolean oracles passed as arguments; notifications have no effect on
    the modelled state and are dropped.
-/

set_option maxHeartbeats 1000000

namespace SokoModel

/-- Subscription status values of models/subscription.py. -/
inductive SubscriptionStatus
| active
| paused
| cancelled
| expired
deriving DecidableEq, Repr

/-- Pre-order status values of models/subscription.py. -/
inductive PreOrderStatus
| pending
| confirmed
| processing
| fulfilled
| cancelled
deriving DecidableEq, Repr

/-- Billing frequency values of models/subscription.py. -/
inductive PaymentFrequency
| monthly
| quarterly
| annually
deriving DecidableEq, Repr

/-- Payment status values of the pre_orders table. -/
inductive PaymentStatus
| pending
| authorized
| charged
| refunded
deriving DecidableEq, Repr

/-- Which quota dimension rejected a pre-order. -/
inductive QuotaKind
| count
| value
deriving DecidableEq, Repr

/-- Error kinds raised as ValueError in the source, named after the
error catalogue of the spec. -/
inductive Err
| notFound
| invalidState
| windowClosed
| capacityExceeded
| quotaExceeded (k : QuotaKind)
| paymentFailed
| refundFailed
deriving DecidableEq, Repr

/-- The subscription_plans row fields used by the service layer. -/
structure SubscriptionPlan where
  id : ℤ
  price : ℚ
  billing_frequency : PaymentFrequency
  preorder_limit_per_month : ℤ
  preorder_value_limit : ℚ
  discount_percentage : ℚ
  is_active : Bool
deriving DecidableEq, Repr

/-- The subscriptions row fields used by the service layer. -/
structure Subscription where
  id : ℤ
  customer_id : ℤ
  subscription_plan_id : ℤ
  status : SubscriptionStatus
  start_date : ℤ
  end_date : ℤ
  next_billing_date : ℤ
  monthly_preorder_limit : ℤ
  current_month_preorders : ℤ
  total_preorder_value_limit : ℚ
  current_preorder_value : ℚ
  auto_renew : Bool
deriving DecidableEq, Repr

/-- The pre_orders row fields used by the service layer. -/
structure PreOrder where
  id : ℤ
  subscription_id : ℤ
  customer_id : ℤ
  product_id : ℤ
  product_variant_id : Option ℤ
  quantity : ℤ
  unit_price : ℚ
  discount_applied : ℚ
  total_amount : ℚ
  status : PreOrderStatus
  expected_availability_date : Option ℤ
  pre_order_deadline : Option ℤ
  priority_level : ℤ
  payment_status : PaymentStatus
  created_at : ℤ
deriving DecidableEq, Repr

/-- The products row fields used by the service layer. -/
structure Product where
  id : ℤ
  is_pre_order_eligible : Bool
  pre_order_start_date : Option ℤ
  pre_order_end_date : Option ℤ
  expected_availability_date : Option ℤ
  pre_order_limit : Option ℤ
  current_pre_orders : ℤ
  base_price : ℚ
  pre_order_price : Option ℚ
  is_active : Bool
deriving DecidableEq, Repr

/-- The database session state visible to the service layer. -/
structure DBState where
  plans : List SubscriptionPlan
  subscriptions : List Subscription
  products : List Product
  pre_orders : List PreOrder
deriving DecidableEq, Repr

/-- First subscription matching id with status active
(the create_pre_order subscription query). -/
def findActiveSub : List Subscription → ℤ → Option Subscription
| [], _ => none
| s :: rest, sid =>
  if s.id = sid ∧ s.status = SubscriptionStatus.active then some s
  else findActiveSub rest sid

/-- First subscription matching id (relationship access by primary key). -/
def findSubById : List Subscription → ℤ → Option Subscription
| [], _ => none
| s :: rest, sid => if s.id = sid then some s else findSubById rest sid

/-- First product matching id that is active and pre-order eligible
(the create_pre_order product query). -/
def findEligibleProduct : List Product → ℤ → Option Product
| [], _ => none
| p :: rest, pid =>
  if p.id = pid ∧ p.is_active = true ∧ p.is_pre_order_eligible = true then some p
  else findEligibleProduct rest pid

/-- First product matching id (relationship access by primary key). -/
def findProduct : List Product → ℤ → Option Product
| [], _ => none
| p :: rest, pid => if p.id = pid then some p else findProduct rest pid

/-- First plan matching id (the subscription_plan relationship). -/
def findPlan : List SubscriptionPlan → ℤ → Option SubscriptionPlan
| [], _ => none
| p :: rest, pid => if p.id = pid then some p else findPlan rest pid

/-- First pre-order matching id (the cancel_pre_order query). -/
def findPreOrder : List PreOrder → ℤ → Option PreOrder
| [], _ => none
| p :: rest, pid => if p.id = pid then some p else findPreOrder rest pid

/-- The Python expression  product.pre_order_price or product.base_price :
None and 0.0 are both falsy, so a zero pre_order_price falls back to
base_price. -/
def unitPrice (p : Product) : ℚ :=
  match p.pre_order_price with
  | some v => if v = 0 then p.base_price else v
  | none => p.base_price

/-- Non-cancelled pre-orders of one subscription created at or after the
month start (the filter in _validate_subscription_limits). -/
def monthOrders (l : List PreOrder) (sid : ℤ) (month_start : ℤ) : List PreOrder :=
  l.filter (fun po =>
    decide (po.subscription_id = sid ∧ month_start ≤ po.created_at ∧
      po.status ≠ PreOrderStatus.cancelled))

/-- Sum of total_amount over a pre-order list; zero on the empty list,
matching  .scalar() or 0.0 . -/
def ordersValue (l : List PreOrder) : ℚ :=
  (l.map (fun po => po.total_amount)).sum

/-- The discounted order total
 (unit_price - unit_price * discount_percentage / 100) * quantity
computed identically in _validate_subscription_limits and in
create_pre_order. -/
def orderTotal (product : Product) (plan : SubscriptionPlan) (quantity : ℤ) : ℚ :=
  let up := unitPrice product
  let discount_applied := up * (plan.discount_percentage / 100)
  (up - discount_applied) * (quantity : ℚ)

/-- _validate_subscription_limits: the count check, then the value check,
each guarded by the corresponding limit being positive.  The plan lookup
happens between the two checks, exactly where the Python code reads
subscription.subscription_plan. -/
def validate_subscription_limits (pre_orders : List PreOrder)
    (plans : List SubscriptionPlan) (month_start : ℤ)
    (subscription : Subscription) (product : Product) (quantity : ℤ) :
    Except Err Unit :=
  let orders := monthOrders pre_orders subscription.id month_start
  let current_month_orders : ℤ := orders.length
  let current_month_value : ℚ := ordersValue orders
  if subscription.monthly_preorder_limit > 0 ∧
      current_month_orders ≥ subscription.monthly_preorder_limit then
    Except.error (Err.quotaExceeded QuotaKind.count)
  else
    match findPlan plans subscription.subscription_plan_id with
    | none => Except.error Err.notFound
    | some plan =>
      let order_total := orderTotal product plan quantity
      if subscription.total_preorder_value_limit > 0 ∧
          current_month_value + order_total > subscription.total_preorder_value_limit then
        Except.error (Err.quotaExceeded QuotaKind.value)
      else
        Except.ok ()

/-- The Python condition  product.pre_order_start_date and now < start . -/
def windowNotStarted (p : Product) (now : ℤ) : Bool :=
  match p.pre_order_start_date with
  | some s => decide (now < s)
  | none => false

/-- The Python condition  product.pre_order_end_date and now > end . -/
def windowEnded (p : Product) (now : ℤ) : Bool :=
  match p.pre_order_end_date with
  | some e => decide (now > e)
  | none => false

/-- The Python condition
 product.pre_order_limit and current_pre_orders + quantity > pre_order_limit :
a NULL or zero limit is falsy, hence unlimited. -/
def capacityBlocked (p : Product) (quantity : ℤ) : Bool :=
  match p.pre_order_limit with
  | some lim => decide (lim ≠ 0) && decide (p.current_pre_orders + quantity > lim)
  | none => false

/-- Increment the running pre-order counter of the product with the given
id by d (the += and -= statements on product.current_pre_orders). -/
def updateProductCounter (l : List Product) (pid : ℤ) (d : ℤ) : List Product :=
  l.map (fun p =>
    if p.id = pid then { p with current_pre_orders := p.current_pre_orders + d } else p)

/-- Adjust the two running counters of the subscription with the given id
(the += and -= statements on current_month_preorders and
current_preorder_value). -/
def updateSubCounters (l : List Subscription) (sid : ℤ) (dc : ℤ) (dv : ℚ) :
    List Subscription :=
  l.map (fun s =>
    if s.id = sid then
      { s with current_month_preorders := s.current_month_preorders + dc,
               current_preorder_value := s.current_preorder_value + dv }
    else s)

/-- Set the status of the pre-order with the given id. -/
def setPreOrderStatus (l : List PreOrder) (pid : ℤ) (st : PreOrderStatus) :
    List PreOrder :=
  l.map (fun po => if po.id = pid then { po with status := st } else po)

/-- Set the payment status of the pre-order with the given id. -/
def setPaymentStatus (l : List PreOrder) (pid : ℤ) (ps : PaymentStatus) :
    List PreOrder :=
  l.map (fun po => if po.id = pid then { po with payment_status := ps } else po)

/-- The PreOrder row built by a successful create_pre_order: pricing from
the product and the plan discount, status pending, payment pending,
created_at now (column default utcnow). -/
def newPreOrder (subscription : Subscription) (product : Product)
    (plan : SubscriptionPlan) (now : ℤ) (subscription_id product_id : ℤ)
    (quantity : ℤ) (product_variant_id : Option ℤ)
    (priority_level new_id : ℤ) : PreOrder :=
  { id := new_id
    subscription_id := subscription_id
    customer_id := subscription.customer_id
    product_id := product_id
    product_variant_id := product_variant_id
    quantity := quantity
    unit_price := unitPrice product
    discount_applied := unitPrice product * (plan.discount_percentage / 100) * (quantity : ℚ)
    total_amount := orderTotal product plan quantity
    status := PreOrderStatus.pending
    expected_availability_date := product.expected_availability_date
    pre_order_deadline := product.pre_order_end_date
    priority_level := priority_level
    payment_status := PaymentStatus.pending
    created_at := now }

/-- create_pre_order.  now is the current time, month_start is the start
of the current calendar month (day 1, 00:00:00 UTC), new_id is the
primary key the store assigns to the new row.  Every raise happens before
any mutation, so each error branch returns the unchanged state. -/
def create_pre_order (st : DBState) (now month_start : ℤ)
    (subscription_id product_id : ℤ) (quantity : ℤ)
    (product_variant_id : Option ℤ) (priority_level : ℤ) (new_id : ℤ) :
    DBState × Except Err PreOrder :=
  match findActiveSub st.subscriptions subscription_id with
  | none => (st, Except.error Err.notFound)
  | some subscription =>
    match findEligibleProduct st.products product_id with
    | none => (st, Except.error Err.notFound)
    | some product =>
      if windowNotStarted product now then (st, Except.error Err.windowClosed)
      else if windowEnded product now then (st, Except.error Err.windowClosed)
      else if capacityBlocked product quantity then
        (st, Except.error Err.capacityExceeded)
      else
        match validate_subscription_limits st.pre_orders st.plans month_start
            subscription product quantity with
        | Except.error e => (st, Except.error e)
        | Except.ok _ =>
          match findPlan st.plans subscription.subscription_plan_id with
          | none => (st, Except.error Err.notFound)
          | some plan =>
            let po : PreOrder := newPreOrder subscription product plan now
              subscription_id product_id quantity product_variant_id
              priority_level new_id
            ({ st with
                pre_orders := st.pre_orders ++ [po]
                products := updateProductCounter st.products product_id quantity
                subscriptions :=
                  updateSubCounters st.subscriptions subscription_id 1 po.total_amount },
             Except.ok po)

/-- cancel_pre_order.  refundOk is the refund collaborator oracle: when
the pre-order was charged and the refund raises, the status change and
the counter decrements have already been applied in memory and are
returned with the error, matching the mutation order of the source. -/
def cancel_pre_order (st : DBState) (refundOk : Bool) (pre_order_id : ℤ) :
    DBState × Except Err Unit :=
  match findPreOrder st.pre_orders pre_order_id with
  | none => (st, Except.error Err.notFound)
  | some po =>
    if po.status = PreOrderStatus.cancelled then (st, Except.error Err.invalidState)
    else if po.status = PreOrderStatus.processing ∨
        po.status = PreOrderStatus.fulfilled then
      (st, Except.error Err.invalidState)
    else
      let st1 : DBState :=
        { st with
            pre_orders := setPreOrderStatus st.pre_orders pre_order_id
              PreOrderStatus.cancelled
            products := updateProductCounter st.products po.product_id (-po.quantity)
            subscriptions := updateSubCounters st.subscriptions po.subscription_id
              (-1) (-po.total_amount) }
      if po.payment_status = PaymentStatus.charged then
        if refundOk then
          ({ st1 with
              pre_orders := setPaymentStatus st1.pre_orders pre_order_id
                PaymentStatus.refunded },
           Except.ok ())
        else (st1, Except.error Err.refundFailed)
      else (st1, Except.ok ())

/-- Days added to the billing dates for each frequency. -/
def periodDays : PaymentFrequency → ℤ
| PaymentFrequency.monthly => 30
| PaymentFrequency.quarterly => 90
| PaymentFrequency.annually => 365

/-- _process_subscription_renewal on a single subscription: the charge is
attempted first, so a payment failure leaves the row untouched; success
advances both billing dates by the plan period and resets the monthly
counters. -/
def process_subscription_renewal (s : Subscription) (plan : SubscriptionPlan)
    (chargeOk : Bool) : Except Err Subscription :=
  if chargeOk then
    let nbd := s.next_billing_date + periodDays plan.billing_frequency
    Except.ok
      { s with
          next_billing_date := nbd
          end_date := nbd
          current_month_preorders := 0
          current_preorder_value := 0 }
  else Except.error Err.paymentFailed

/-- The due filter of process_billing_cycle: status active, auto_renew
set, and next_billing_date at most today (date truncation is the
identity at day granularity). -/
def subscriptionDue (s : Subscription) (today : ℤ) : Bool :=
  decide (s.status = SubscriptionStatus.active) && s.auto_renew &&
    decide (s.next_billing_date ≤ today)

/-- One iteration of the billing sweep loop: a due subscription is
renewed when the charge succeeds; any per-subscription failure (payment
failure, missing plan row) is caught by the try/except and leaves the
row unchanged. -/
def billingStep (plans : List SubscriptionPlan) (today : ℤ)
    (chargeOk : ℤ → Bool) (s : Subscription) : Subscription :=
  if subscriptionDue s today then
    match findPlan plans s.subscription_plan_id with
    | none => s
    | some plan =>
      match process_subscription_renewal s plan (chargeOk s.id) with
      | Except.ok s2 => s2
      | Except.error _ => s
  else s

/-- process_billing_cycle: the sweep applies the per-subscription renewal
to every due subscription independently; a failure is reported and the
loop continues. -/
def process_billing_cycle (st : DBState) (today : ℤ) (chargeOk : ℤ → Bool) :
    DBState :=
  { st with subscriptions := st.subscriptions.map (billingStep st.plans today chargeOk) }


/-- Rewrite only the two running counter fields of a subscription,
arbitrarily per id. -/
def counterRepaint (f : ℤ → ℤ) (g : ℤ → ℚ) (s : Subscription) : Subscription :=
  { s with current_month_preorders := f s.id, current_preorder_value := g s.id }

lemma findProduct_update (l : List Product) (pid d : ℤ) :
    findProduct (updateProductCounter l pid d) pid =
      (findProduct l pid).map
        (fun p => { p with current_pre_orders := p.current_pre_orders + d }) := by
  induction l with
  | nil => rfl
  | cons p rest ih =>
    by_cases h : p.id = pid
    · simp [updateProductCounter, findProduct, h]
    · simpa [updateProductCounter, findProduct, h] using ih

lemma findSubById_update (l : List Subscription) (sid : ℤ) (dc : ℤ) (dv : ℚ) :
    findSubById (updateSubCounters l sid dc dv) sid =
      (findSubById l sid).map
        (fun s => { s with
          current_month_preorders := s.current_month_preorders + dc,
          current_preorder_value := s.current_preorder_value + dv }) := by
  induction l with
  | nil => rfl
  | cons s rest ih =>
    by_cases h : s.id = sid
    · simp [updateSubCounters, findSubById, h]
    · simpa [updateSubCounters, findSubById, h] using ih

lemma findPreOrder_setStatus (l : List PreOrder) (pid : ℤ) (c : PreOrderStatus) :
    findPreOrder (setPreOrderStatus l pid c) pid =
      (findPreOrder l pid).map (fun po => { po with status := c }) := by
  induction l with
  | nil => rfl
  | cons po rest ih =>
    by_cases h : po.id = pid
    · simp [setPreOrderStatus, findPreOrder, h]
    · simpa [setPreOrderStatus, findPreOrder, h] using ih

lemma findPreOrder_setPayment (l : List PreOrder) (pid : ℤ) (c : PaymentStatus) :
    findPreOrder (setPaymentStatus l pid c) pid =
      (findPreOrder l pid).map (fun po => { po with payment_status := c }) := by
  induction l with
  | nil => rfl
  | cons po rest ih =>
    by_cases h : po.id = pid
    · simp [setPaymentStatus, findPreOrder, h]
    · simpa [setPaymentStatus, findPreOrder, h] using ih

lemma findPreOrder_append_fresh (l : List PreOrder) (po : PreOrder)
    (h : ∀ q ∈ l, q.id ≠ po.id) :
    findPreOrder (l ++ [po]) po.id = some po := by
  induction l with
  | nil => simp [findPreOrder]
  | cons q rest ih =>
    have hq : q.id ≠ po.id := h q (by simp)
    simp only [List.cons_append, findPreOrder, if_neg hq]
    exact ih (fun r hr => h r (by simp [hr]))

lemma findActiveSub_repaint (l : List Subscription) (f : ℤ → ℤ) (g : ℤ → ℚ)
    (sid : ℤ) :
    findActiveSub (l.map (counterRepaint f g)) sid =
      (findActiveSub l sid).map (counterRepaint f g) := by
  induction l with
  | nil => rfl
  | cons s rest ih =>
    by_cases h : s.id = sid ∧ s.status = SubscriptionStatus.active
    · simp [findActiveSub, counterRepaint, h.1, h.2]
    · have h2 : ¬((counterRepaint f g s).id = sid ∧
          (counterRepaint f g s).status = SubscriptionStatus.active) := h
      simp only [List.map_cons, findActiveSub, if_neg h, if_neg h2]
      exact ih

lemma validate_repaint (pre_orders : List PreOrder)
    (plans : List SubscriptionPlan) (month_start : ℤ) (f : ℤ → ℤ) (g : ℤ → ℚ)
    (s : Subscription) (product : Product) (quantity : ℤ) :
    validate_subscription_limits pre_orders plans month_start
        (counterRepaint f g s) product quantity =
      validate_subscription_limits pre_orders plans month_start s product
        quantity := rfl

lemma create_pre_order_ok_elim
    (st : DBState) (now month_start sid pid qty : ℤ) (var : Option ℤ)
    (prio nid : ℤ) (st1 : DBState) (po : PreOrder)
    (h : create_pre_order st now month_start sid pid qty var prio nid =
      (st1, Except.ok po)) :
    ∃ subscription product plan,
      findActiveSub st.subscriptions sid = some subscription ∧
      findEligibleProduct st.products pid = some product ∧
      findPlan st.plans subscription.subscription_plan_id = some plan ∧
      po = newPreOrder subscription product plan now sid pid qty var prio nid ∧
      st1 = { st with
        pre_orders := st.pre_orders ++ [po]
        products := updateProductCounter st.products pid qty
        subscriptions := updateSubCounters st.subscriptions sid 1 po.total_amount } := by
  unfold create_pre_order at h
  split at h
  · simp at h
  · split at h
    · simp at h
    · split at h
      · simp at h
      · split at h
        · simp at h
        · split at h
          · simp at h
          · split at h
            · simp at h
            · split at h
              · simp at h
              · rename_i x1 subscription hsub x2 product hprod hw1 hw2 hcap x3 u hval x4 plan hplan
                simp only [Prod.mk.injEq, Except.ok.injEq] at h
                refine ⟨subscription, product, plan, hsub, hprod, hplan, h.2.symm, ?_⟩
                rw [← h.1, ← h.2]

lemma billingStep_renews (plans : List SubscriptionPlan) (today : ℤ)
    (chargeOk : ℤ → Bool) (s : Subscription) (plan : SubscriptionPlan)
    (hdue : subscriptionDue s today = true)
    (hplan : findPlan plans s.subscription_plan_id = some plan)
    (hch : chargeOk s.id = true) :
    billingStep plans today chargeOk s =
      { s with
          next_billing_date := s.next_billing_date + periodDays plan.billing_frequency
          end_date := s.next_billing_date + periodDays plan.billing_frequency
          current_month_preorders := 0
          current_preorder_value := 0 } := by
  unfold billingStep process_subscription_renewal
  simp [hdue, hplan, hch]

lemma billingStep_charge_fails (plans : List SubscriptionPlan) (today : ℤ)
    (chargeOk : ℤ → Bool) (s : Subscription)
    (hch : chargeOk s.id = false) :
    billingStep plans today chargeOk s = s := by
  unfold billingStep process_subscription_renewal
  by_cases hdue : subscriptionDue s today = true
  · simp only [hdue, if_true]
    cases hplan : findPlan plans s.subscription_plan_id with
    | none => rfl
    | some plan => simp [hch]
  · simp [hdue]


/-- Claim C1: when monthly_preorder_limit is positive and the count of
non-cancelled pre-orders of this subscription created since the start of
the current calendar month already reaches the limit, create_pre_order
is rejected with QuotaExceeded count and the whole database state,
product counter and subscription counters included, is unchanged. -/
theorem claim1_quota_count_rejection
    (st : DBState) (now month_start sid pid qty : ℤ) (var : Option ℤ)
    (prio nid : ℤ) (subscription : Subscription) (product : Product)
    (hsub : findActiveSub st.subscriptions sid = some subscription)
    (hprod : findEligibleProduct st.products pid = some product)
    (hw1 : windowNotStarted product now = false)
    (hw2 : windowEnded product now = false)
    (hcap : capacityBlocked product qty = false)
    (hlim : subscription.monthly_preorder_limit > 0)
    (hcnt : ((monthOrders st.pre_orders subscription.id month_start).length : ℤ) ≥
      subscription.monthly_preorder_limit) :
    create_pre_order st now month_start sid pid qty var prio nid =
      (st, Except.error (Err.quotaExceeded QuotaKind.count)) := by
  unfold create_pre_order validate_subscription_limits
  simp only [hsub, hprod, hw1, hw2, hcap, Bool.false_eq_true, if_false]
  rw [if_pos ⟨hlim, hcnt⟩]

/-- Claim C2: with a positive total_preorder_value_limit the value
rejection happens exactly when the sum of this month non-cancelled
pre-order totals plus the discounted order total strictly exceeds the
limit; hitting the limit exactly is admitted, and a zero limit disables
the value check. -/
theorem claim2_quota_value_boundary
    (st : DBState) (now month_start sid pid qty : ℤ) (var : Option ℤ)
    (prio nid : ℤ) (subscription : Subscription) (product : Product)
    (plan : SubscriptionPlan)
    (hsub : findActiveSub st.subscriptions sid = some subscription)
    (hprod : findEligibleProduct st.products pid = some product)
    (hw1 : windowNotStarted product now = false)
    (hw2 : windowEnded product now = false)
    (hcap : capacityBlocked product qty = false)
    (hcount : ¬(subscription.monthly_preorder_limit > 0 ∧
      ((monthOrders st.pre_orders subscription.id month_start).length : ℤ) ≥
        subscription.monthly_preorder_limit))
    (hplan : findPlan st.plans subscription.subscription_plan_id = some plan) :
    ((create_pre_order st now month_start sid pid qty var prio nid).2 =
        Except.error (Err.quotaExceeded QuotaKind.value) ↔
      subscription.total_preorder_value_limit > 0 ∧
        ordersValue (monthOrders st.pre_orders subscription.id month_start) +
            orderTotal product plan qty >
          subscription.total_preorder_value_limit) ∧
    (¬(subscription.total_preorder_value_limit > 0 ∧
        ordersValue (monthOrders st.pre_orders subscription.id month_start) +
            orderTotal product plan qty >
          subscription.total_preorder_value_limit) →
      (create_pre_order st now month_start sid pid qty var prio nid).2 =
        Except.ok (newPreOrder subscription product plan now sid pid qty var
          prio nid)) := by
  unfold create_pre_order validate_subscription_limits
  simp only [hsub, hprod, hw1, hw2, hcap, hplan, Bool.false_eq_true, if_false]
  rw [if_neg hcount]
  by_cases hv : subscription.total_preorder_value_limit > 0 ∧
      ordersValue (monthOrders st.pre_orders subscription.id month_start) +
        orderTotal product plan qty > subscription.total_preorder_value_limit
  · rw [if_pos hv]
    constructor
    · simp [hv]
    · intro hc
      exact absurd hv hc
  · rw [if_neg hv]
    constructor
    · simp [hv]
    · intro _
      rfl

/-- Claim C3: a due subscription whose renewal charge succeeds appears
in the post-sweep state with both billing dates advanced by the plan
period (30, 90 or 365 days) and both monthly counters reset to zero. -/
theorem claim3_renewal_advances_and_resets
    (st : DBState) (today : ℤ) (chargeOk : ℤ → Bool)
    (s : Subscription) (plan : SubscriptionPlan)
    (hmem : s ∈ st.subscriptions)
    (hact : s.status = SubscriptionStatus.active)
    (har : s.auto_renew = true)
    (hdue : s.next_billing_date ≤ today)
    (hplan : findPlan st.plans s.subscription_plan_id = some plan)
    (hch : chargeOk s.id = true) :
    { s with
        next_billing_date := s.next_billing_date + periodDays plan.billing_frequency
        end_date := s.next_billing_date + periodDays plan.billing_frequency
        current_month_preorders := 0
        current_preorder_value := 0 } ∈
      (process_billing_cycle st today chargeOk).subscriptions := by
  have hstep := billingStep_renews st.plans today chargeOk s plan
    (by simp [subscriptionDue, hact, har, hdue]) hplan hch
  unfold process_billing_cycle
  exact hstep ▸ List.mem_map_of_mem _ hmem

/-- Claim C4: inside one billing sweep a failed renewal charge leaves
that subscription row exactly as it was, and another due subscription
whose charge succeeds is still renewed in the same sweep. -/
theorem claim4_renewal_failure_isolated
    (st : DBState) (today : ℤ) (chargeOk : ℤ → Bool)
    (s1 s2 : Subscription) (plan2 : SubscriptionPlan)
    (hm1 : s1 ∈ st.subscriptions)
    (_hdue1 : subscriptionDue s1 today = true)
    (hch1 : chargeOk s1.id = false)
    (hm2 : s2 ∈ st.subscriptions)
    (hact2 : s2.status = SubscriptionStatus.active)
    (har2 : s2.auto_renew = true)
    (hdue2 : s2.next_billing_date ≤ today)
    (hplan2 : findPlan st.plans s2.subscription_plan_id = some plan2)
    (hch2 : chargeOk s2.id = true) :
    s1 ∈ (process_billing_cycle st today chargeOk).subscriptions ∧
    { s2 with
        next_billing_date := s2.next_billing_date + periodDays plan2.billing_frequency
        end_date := s2.next_billing_date + periodDays plan2.billing_frequency
        current_month_preorders := 0
        current_preorder_value := 0 } ∈
      (process_billing_cycle st today chargeOk).subscriptions := by
  constructor
  · have hstep := billingStep_charge_fails st.plans today chargeOk s1 hch1
    unfold process_billing_cycle
    exact hstep ▸ List.mem_map_of_mem _ hm1
  · have hstep := billingStep_renews st.plans today chargeOk s2 plan2
      (by simp [subscriptionDue, hact2, har2, hdue2]) hplan2 hch2
    unfold process_billing_cycle
    exact hstep ▸ List.mem_map_of_mem _ hm2

/-- Claim C7: on a charged pre-order in a cancellable status, cancelling
with a working refund yields success with status cancelled and payment
status refunded; when the refund raises, the caller sees RefundFailed
but the cancellation has still been applied: status cancelled and the
product and subscription counters decremented, not rolled back. -/
theorem claim7_refund_failure_commits_cancellation
    (st : DBState) (pid : ℤ) (po : PreOrder) (prod : Product)
    (sub : Subscription)
    (hpo : findPreOrder st.pre_orders pid = some po)
    (hnc : po.status ≠ PreOrderStatus.cancelled)
    (hnp : po.status ≠ PreOrderStatus.processing)
    (hnf : po.status ≠ PreOrderStatus.fulfilled)
    (hch : po.payment_status = PaymentStatus.charged)
    (hprod : findProduct st.products po.product_id = some prod)
    (hsub : findSubById st.subscriptions po.subscription_id = some sub) :
    ((cancel_pre_order st true pid).2 = Except.ok () ∧
      (findPreOrder (cancel_pre_order st true pid).1.pre_orders pid).map
          (fun q => q.status) = some PreOrderStatus.cancelled ∧
      (findPreOrder (cancel_pre_order st true pid).1.pre_orders pid).map
          (fun q => q.payment_status) = some PaymentStatus.refunded) ∧
    ((cancel_pre_order st false pid).2 = Except.error Err.refundFailed ∧
      (findPreOrder (cancel_pre_order st false pid).1.pre_orders pid).map
          (fun q => q.status) = some PreOrderStatus.cancelled ∧
      (findProduct (cancel_pre_order st false pid).1.products po.product_id).map
          (fun p => p.current_pre_orders) =
        some (prod.current_pre_orders - po.quantity) ∧
      (findSubById (cancel_pre_order st false pid).1.subscriptions
          po.subscription_id).map (fun s => s.current_month_preorders) =
        some (sub.current_month_preorders - 1) ∧
      (findSubById (cancel_pre_order st false pid).1.subscriptions
          po.subscription_id).map (fun s => s.current_preorder_value) =
        some (sub.current_preorder_value - po.total_amount)) := by
  unfold cancel_pre_order
  simp only [hpo, hch]
  simp only [if_neg hnc, if_neg (by simp [hnp, hnf] :
    ¬(po.status = PreOrderStatus.processing ∨ po.status = PreOrderStatus.fulfilled))]
  refine ⟨⟨rfl, ?_, ?_⟩, rfl, ?_, ?_, ?_, ?_⟩
  · simp [findPreOrder_setPayment, findPreOrder_setStatus, hpo]
  · simp [findPreOrder_setPayment, findPreOrder_setStatus, hpo]
  · simp [findPreOrder_setStatus, hpo]
  · simp [findProduct_update, hprod]
    ring
  · simp [findSubById_update, hsub]
    ring
  · simp [findSubById_update, hsub]
    ring

/-- Claim C8: cancelling a pre-order whose status is processing,
fulfilled or already cancelled is rejected with InvalidState and the
whole database state is returned untouched. -/
theorem claim8_terminal_cancel_rejected
    (st : DBState) (refundOk : Bool) (pid : ℤ) (po : PreOrder)
    (hpo : findPreOrder st.pre_orders pid = some po)
    (hstat : po.status = PreOrderStatus.processing ∨
      po.status = PreOrderStatus.fulfilled ∨
      po.status = PreOrderStatus.cancelled) :
    cancel_pre_order st refundOk pid = (st, Except.error Err.invalidState) := by
  unfold cancel_pre_order
  rcases hstat with h | h | h <;> simp [hpo, h]

/-- Claim C10: the accept or reject outcome of create_pre_order is
unchanged when the stored current_month_preorders and
current_preorder_value counters of every subscription are overwritten
arbitrarily, since the quota check reads only the persisted pre-order
rows and the limit fields. -/
theorem claim10_quota_decision_ignores_counters
    (st : DBState) (f : ℤ → ℤ) (g : ℤ → ℚ)
    (now month_start sid pid qty : ℤ) (var : Option ℤ) (prio nid : ℤ) :
    (create_pre_order
        { st with subscriptions := st.subscriptions.map (counterRepaint f g) }
        now month_start sid pid qty var prio nid).2 =
      (create_pre_order st now month_start sid pid qty var prio nid).2 := by
  unfold create_pre_order
  simp only [findActiveSub_repaint]
  cases hs : findActiveSub st.subscriptions sid with
  | none => rfl
  | some s =>
    simp only [Option.map_some']
    cases hp : findEligibleProduct st.products pid with
    | none => rfl
    | some product =>
      simp only []
      by_cases hw1 : windowNotStarted product now = true
      · simp only [hw1, if_true]
      · by_cases hw2 : windowEnded product now = true
        · simp only [hw1, hw2, Bool.false_eq_true, if_false, if_true]
        · by_cases hcap : capacityBlocked product qty = true
          · simp only [hw1, hw2, hcap, Bool.false_eq_true, if_false, if_true]
          · simp only [hw1, hw2, hcap, Bool.false_eq_true, if_false]
            rw [validate_repaint]
            rw [show (counterRepaint f g s).subscription_plan_id =
              s.subscription_plan_id from rfl]
            cases hv : validate_subscription_limits st.pre_orders st.plans
                month_start s product qty with
            | error e => rfl
            | ok u =>
              cases hpl : findPlan st.plans s.subscription_plan_id with
              | none => rfl
              | some plan => rfl


/-- Decidable equality for Except results, used to evaluate the service
functions on concrete fixtures. -/
instance instDecEqExcept {ε α : Type} [DecidableEq ε] [DecidableEq α] :
    DecidableEq (Except ε α) := fun a b =>
  match a, b with
  | Except.error e, Except.error f =>
    if h : e = f then isTrue (by rw [h])
    else isFalse (by intro hc; cases hc; exact h rfl)
  | Except.error _, Except.ok _ => isFalse (by intro hc; cases hc)
  | Except.ok _, Except.error _ => isFalse (by intro hc; cases hc)
  | Except.ok x, Except.ok y =>
    if h : x = y then isTrue (by rw [h])
    else isFalse (by intro hc; cases hc; exact h rfl)

/-- Claim C6: whenever create_pre_order succeeds, immediately cancelling
the created pre-order restores the product pre-order counter and both
subscription counters to exactly their pre-creation values, for any
behaviour of the refund collaborator. -/
theorem claim6_create_cancel_roundtrip
    (st st1 : DBState) (po : PreOrder) (now month_start sid pid qty : ℤ)
    (var : Option ℤ) (prio nid : ℤ) (refundOk : Bool)
    (hcr : create_pre_order st now month_start sid pid qty var prio nid =
      (st1, Except.ok po))
    (hfresh : ∀ q ∈ st.pre_orders, q.id ≠ nid) :
    (cancel_pre_order st1 refundOk po.id).2 = Except.ok () ∧
    (findProduct (cancel_pre_order st1 refundOk po.id).1.products pid).map
        (fun p => p.current_pre_orders) =
      (findProduct st.products pid).map (fun p => p.current_pre_orders) ∧
    (findSubById (cancel_pre_order st1 refundOk po.id).1.subscriptions sid).map
        (fun s => s.current_month_preorders) =
      (findSubById st.subscriptions sid).map (fun s => s.current_month_preorders) ∧
    (findSubById (cancel_pre_order st1 refundOk po.id).1.subscriptions sid).map
        (fun s => s.current_preorder_value) =
      (findSubById st.subscriptions sid).map (fun s => s.current_preorder_value) := by
  obtain ⟨subscription, product, plan, hsub, hprod, hplan, hpo, hst1⟩ :=
    create_pre_order_ok_elim st now month_start sid pid qty var prio nid st1 po hcr
  subst hpo
  subst hst1
  have hfind : findPreOrder
      (st.pre_orders ++
        [newPreOrder subscription product plan now sid pid qty var prio nid])
      (newPreOrder subscription product plan now sid pid qty var prio nid).id =
      some (newPreOrder subscription product plan now sid pid qty var prio nid) :=
    findPreOrder_append_fresh _ _ (fun q hq => hfresh q hq)
  unfold cancel_pre_order
  simp only [hfind]
  simp only [newPreOrder]
  rw [if_neg (by decide : ¬(PreOrderStatus.pending = PreOrderStatus.cancelled)),
    if_neg (by decide : ¬(PreOrderStatus.pending = PreOrderStatus.processing ∨
      PreOrderStatus.pending = PreOrderStatus.fulfilled)),
    if_neg (by decide : ¬(PaymentStatus.pending = PaymentStatus.charged))]
  refine ⟨rfl, ?_, ?_, ?_⟩
  · simp only [findProduct_update, Option.map_map]
    cases hp : findProduct st.products pid with
    | none => rfl
    | some p => simp
  · simp only [findSubById_update, Option.map_map]
    cases hs : findSubById st.subscriptions sid with
    | none => rfl
    | some s => simp
  · simp only [findSubById_update, Option.map_map]
    cases hs : findSubById st.subscriptions sid with
    | none => rfl
    | some s => simp

/-- Claim C9 (amended): every successful create_pre_order prices the
order from the effective unit price of the code, which is pre_order_price
when that is set and nonzero and base_price otherwise, with the plan
discount: total_amount = (unit - unit * discount / 100) * quantity and
discount_applied = unit * discount / 100 * quantity. -/
theorem claim9_total_amount_formula
    (st st1 : DBState) (po : PreOrder) (now month_start sid pid qty : ℤ)
    (var : Option ℤ) (prio nid : ℤ)
    (hcr : create_pre_order st now month_start sid pid qty var prio nid =
      (st1, Except.ok po)) :
    ∃ subscription product plan,
      findActiveSub st.subscriptions sid = some subscription ∧
      findEligibleProduct st.products pid = some product ∧
      findPlan st.plans subscription.subscription_plan_id = some plan ∧
      po.unit_price = unitPrice product ∧
      po.quantity = qty ∧
      po.discount_applied =
        unitPrice product * (plan.discount_percentage / 100) * (qty : ℚ) ∧
      po.total_amount =
        (unitPrice product - unitPrice product * (plan.discount_percentage / 100)) *
          (qty : ℚ) := by
  obtain ⟨subscription, product, plan, hsub, hprod, hplan, hpo, hst1⟩ :=
    create_pre_order_ok_elim st now month_start sid pid qty var prio nid st1 po hcr
  subst hpo
  exact ⟨subscription, product, plan, hsub, hprod, hplan, rfl, rfl, rfl, rfl⟩

/-- The unit price as the claim words it: the pre_order_price whenever it
is set, otherwise the base_price.  This follows the claim text, not the
source, and is compared against the source behaviour. -/
def specClaimedUnitPrice (p : Product) : ℚ :=
  match p.pre_order_price with
  | some v => v
  | none => p.base_price

/-- A basic monthly plan fixture with no discount. -/
def planBasic : SubscriptionPlan :=
  { id := 1, price := 100, billing_frequency := PaymentFrequency.monthly,
    preorder_limit_per_month := 2, preorder_value_limit := 100,
    discount_percentage := 0, is_active := true }

/-- An active unlimited subscription fixture on planBasic. -/
def subMain : Subscription :=
  { id := 1, customer_id := 7, subscription_plan_id := 1,
    status := SubscriptionStatus.active, start_date := 0, end_date := 30,
    next_billing_date := 10, monthly_preorder_limit := 0,
    current_month_preorders := 0, total_preorder_value_limit := 0,
    current_preorder_value := 0, auto_renew := true }

/-- An eligible product fixture with open window and no capacity limit. -/
def prodMain : Product :=
  { id := 1, is_pre_order_eligible := true, pre_order_start_date := none,
    pre_order_end_date := none, expected_availability_date := none,
    pre_order_limit := none, current_pre_orders := 0, base_price := 50,
    pre_order_price := none, is_active := true }

/-- The base database fixture. -/
def baseState : DBState :=
  { plans := [planBasic], subscriptions := [subMain], products := [prodMain],
    pre_orders := [] }

/-- A pending pre-order fixture of this month (created_at 5). -/
def poPending50 : PreOrder :=
  { id := 50, subscription_id := 1, customer_id := 7, product_id := 1,
    product_variant_id := none, quantity := 1, unit_price := 50,
    discount_applied := 0, total_amount := 50,
    status := PreOrderStatus.pending, expected_availability_date := none,
    pre_order_deadline := none, priority_level := 1,
    payment_status := PaymentStatus.pending, created_at := 5 }

/-- The pre-order created by create_pre_order on baseState. -/
def poC6 : PreOrder := newPreOrder subMain prodMain planBasic 15 1 1 1 none 1 100

/-- The database state after that creation. -/
def stC6 : DBState :=
  { plans := [planBasic]
    subscriptions := updateSubCounters [subMain] 1 1 poC6.total_amount
    products := updateProductCounter [prodMain] 1 1
    pre_orders := [poC6] }

/-- Claim C5 (refuted, code bug): create a pre-order, let a successful
billing renewal reset the monthly counters to zero, then cancel the
still-pending pre-order: both counters of the subscription go strictly
negative (minus one order, minus 50 value), violating the non-negativity
invariant the claim states. -/
theorem claim5_counter_goes_negative :
    (findSubById (cancel_pre_order (process_billing_cycle
          (create_pre_order baseState 15 0 1 1 1 none 1 100).1 20
          (fun _ => true)) true 100).1.subscriptions 1).map
        (fun s => s.current_month_preorders) = some (-1) ∧
    (findSubById (cancel_pre_order (process_billing_cycle
          (create_pre_order baseState 15 0 1 1 1 none 1 100).1 20
          (fun _ => true)) true 100).1.subscriptions 1).map
        (fun s => s.current_preorder_value) = some (-50) := by
  with_unfolding_all decide

/-- Witness for claim C6 at the base fixture. -/
theorem claim6_create_cancel_roundtrip_witness :
    (cancel_pre_order stC6 true poC6.id).2 = Except.ok () ∧
    (findProduct (cancel_pre_order stC6 true poC6.id).1.products 1).map
        (fun p => p.current_pre_orders) =
      (findProduct baseState.products 1).map (fun p => p.current_pre_orders) ∧
    (findSubById (cancel_pre_order stC6 true poC6.id).1.subscriptions 1).map
        (fun s => s.current_month_preorders) =
      (findSubById baseState.subscriptions 1).map
        (fun s => s.current_month_preorders) ∧
    (findSubById (cancel_pre_order stC6 true poC6.id).1.subscriptions 1).map
        (fun s => s.current_preorder_value) =
      (findSubById baseState.subscriptions 1).map
        (fun s => s.current_preorder_value) :=
  claim6_create_cancel_roundtrip baseState stC6 poC6 15 0 1 1 1 none 1 100 true
    (by with_unfolding_all decide) (by decide)

/-- Subscription fixture with a count limit of one. -/
def subLimit1 : Subscription := { subMain with monthly_preorder_limit := 1 }

/-- State fixture for the count-quota rejection. -/
def stateC1 : DBState :=
  { plans := [planBasic], subscriptions := [subLimit1], products := [prodMain],
    pre_orders := [poPending50] }

/-- Witness for claim C1. -/
theorem claim1_quota_count_rejection_witness :
    create_pre_order stateC1 15 0 1 1 1 none 1 101 =
      (stateC1, Except.error (Err.quotaExceeded QuotaKind.count)) :=
  claim1_quota_count_rejection stateC1 15 0 1 1 1 none 1 101 subLimit1 prodMain
    (by decide) (by decide) (by decide) (by decide) (by decide) (by decide)
    (by decide)

/-- Subscription fixture with a value limit of 100. -/
def subValue100 : Subscription := { subMain with total_preorder_value_limit := 100 }

/-- Product fixture priced at 60. -/
def prod60 : Product := { prodMain with base_price := 60 }

/-- A pending pre-order of 60 within this month. -/
def poPending60 : PreOrder := { poPending50 with unit_price := 60, total_amount := 60 }

/-- State fixture for the value-quota boundary. -/
def stateC2 : DBState :=
  { plans := [planBasic], subscriptions := [subValue100], products := [prod60],
    pre_orders := [poPending60] }

/-- Witness for claim C2. -/
theorem claim2_quota_value_boundary_witness :
    ((create_pre_order stateC2 15 0 1 1 1 none 1 101).2 =
        Except.error (Err.quotaExceeded QuotaKind.value) ↔
      subValue100.total_preorder_value_limit > 0 ∧
        ordersValue (monthOrders stateC2.pre_orders subValue100.id 0) +
            orderTotal prod60 planBasic 1 >
          subValue100.total_preorder_value_limit) ∧
    (¬(subValue100.total_preorder_value_limit > 0 ∧
        ordersValue (monthOrders stateC2.pre_orders subValue100.id 0) +
            orderTotal prod60 planBasic 1 >
          subValue100.total_preorder_value_limit) →
      (create_pre_order stateC2 15 0 1 1 1 none 1 101).2 =
        Except.ok (newPreOrder subValue100 prod60 planBasic 15 1 1 1 none 1
          101)) :=
  claim2_quota_value_boundary stateC2 15 0 1 1 1 none 1 101 subValue100 prod60
    planBasic (by decide) (by decide) (by decide) (by decide) (by decide)
    (by decide) (by decide)

/-- Witness for claim C3. -/
theorem claim3_renewal_advances_and_resets_witness :
    { subMain with
        next_billing_date := subMain.next_billing_date +
          periodDays planBasic.billing_frequency
        end_date := subMain.next_billing_date +
          periodDays planBasic.billing_frequency
        current_month_preorders := 0
        current_preorder_value := 0 } ∈
      (process_billing_cycle baseState 20 (fun _ => true)).subscriptions :=
  claim3_renewal_advances_and_resets baseState 20 (fun _ => true) subMain
    planBasic (by decide) (by decide) (by decide) (by decide) (by decide)
    (by decide)

/-- A second active due subscription fixture. -/
def subTwo : Subscription := { subMain with id := 2, customer_id := 8 }

/-- State fixture with two due subscriptions. -/
def stateC4 : DBState :=
  { plans := [planBasic], subscriptions := [subMain, subTwo],
    products := [prodMain], pre_orders := [] }

/-- Witness for claim C4: the charge succeeds only for subscription 2. -/
theorem claim4_renewal_failure_isolated_witness :
    subMain ∈ (process_billing_cycle stateC4 20
        (fun i => decide (i = 2))).subscriptions ∧
    { subTwo with
        next_billing_date := subTwo.next_billing_date +
          periodDays planBasic.billing_frequency
        end_date := subTwo.next_billing_date +
          periodDays planBasic.billing_frequency
        current_month_preorders := 0
        current_preorder_value := 0 } ∈
      (process_billing_cycle stateC4 20
        (fun i => decide (i = 2))).subscriptions :=
  claim4_renewal_failure_isolated stateC4 20 (fun i => decide (i = 2))
    subMain subTwo planBasic (by decide) (by decide) (by decide) (by decide)
    (by decide) (by decide) (by decide) (by decide) (by decide)

/-- A charged pending pre-order fixture. -/
def poCharged : PreOrder :=
  { poPending50 with id := 60, payment_status := PaymentStatus.charged }

/-- Product fixture carrying one open pre-order unit. -/
def prodOne : Product := { prodMain with current_pre_orders := 1 }

/-- Subscription fixture carrying the counters of one open pre-order. -/
def subUsed : Subscription :=
  { subMain with current_month_preorders := 1, current_preorder_value := 50 }

/-- State fixture for the refund-failure cancellation. -/
def stateC7 : DBState :=
  { plans := [planBasic], subscriptions := [subUsed], products := [prodOne],
    pre_orders := [poCharged] }

/-- Witness for claim C7. -/
theorem claim7_refund_failure_commits_cancellation_witness :
    ((cancel_pre_order stateC7 true 60).2 = Except.ok () ∧
      (findPreOrder (cancel_pre_order stateC7 true 60).1.pre_orders 60).map
          (fun q => q.status) = some PreOrderStatus.cancelled ∧
      (findPreOrder (cancel_pre_order stateC7 true 60).1.pre_orders 60).map
          (fun q => q.payment_status) = some PaymentStatus.refunded) ∧
    ((cancel_pre_order stateC7 false 60).2 = Except.error Err.refundFailed ∧
      (findPreOrder (cancel_pre_order stateC7 false 60).1.pre_orders 60).map
          (fun q => q.status) = some PreOrderStatus.cancelled ∧
      (findProduct (cancel_pre_order stateC7 false 60).1.products
          poCharged.product_id).map (fun p => p.current_pre_orders) =
        some (prodOne.current_pre_orders - poCharged.quantity) ∧
      (findSubById (cancel_pre_order stateC7 false 60).1.subscriptions
          poCharged.subscription_id).map (fun s => s.current_month_preorders) =
        some (subUsed.current_month_preorders - 1) ∧
      (findSubById (cancel_pre_order stateC7 false 60).1.subscriptions
          poCharged.subscription_id).map (fun s => s.current_preorder_value) =
        some (subUsed.current_preorder_value - poCharged.total_amount)) :=
  claim7_refund_failure_commits_cancellation stateC7 60 poCharged prodOne
    subUsed (by decide) (by decide) (by decide) (by decide) (by decide)
    (by decide) (by decide)

/-- A pre-order fixture already in processing. -/
def poProcessing : PreOrder :=
  { poPending50 with id := 70, status := PreOrderStatus.processing }

/-- State fixture for the terminal-status cancellation. -/
def stateC8 : DBState :=
  { plans := [planBasic], subscriptions := [subMain], products := [prodMain],
    pre_orders := [poProcessing] }

/-- Witness for claim C8. -/
theorem claim8_terminal_cancel_rejected_witness :
    cancel_pre_order stateC8 true 70 =
      (stateC8, Except.error Err.invalidState) :=
  claim8_terminal_cancel_rejected stateC8 true 70 poProcessing (by decide)
    (by decide)

/-- Witness for the amended claim C9 at the base fixture. -/
theorem claim9_total_amount_formula_witness :
    ∃ subscription product plan,
      findActiveSub baseState.subscriptions 1 = some subscription ∧
      findEligibleProduct baseState.products 1 = some product ∧
      findPlan baseState.plans subscription.subscription_plan_id = some plan ∧
      poC6.unit_price = unitPrice product ∧
      poC6.quantity = 1 ∧
      poC6.discount_applied =
        unitPrice product * (plan.discount_percentage / 100) * ((1 : ℤ) : ℚ) ∧
      poC6.total_amount =
        (unitPrice product - unitPrice product * (plan.discount_percentage / 100)) *
          ((1 : ℤ) : ℚ) :=
  claim9_total_amount_formula baseState stC6 poC6 15 0 1 1 1 none 1 100
    (by with_unfolding_all decide)

/-- Product fixture with a set but zero pre_order_price. -/
def prodZeroPrice : Product :=
  { prodMain with base_price := 10, pre_order_price := some 0 }

/-- State fixture for the claim C9 counterexample. -/
def stateC9 : DBState :=
  { plans := [planBasic], subscriptions := [subMain],
    products := [prodZeroPrice], pre_orders := [] }

/-- Counterexample to claim C9 as stated: on a product whose
pre_order_price is set to zero the code falls back to base_price
(Python or-falsiness), so the created pre-order violates the claimed
formula built on the set pre_order_price. -/
theorem claim9_counterexample :
    (create_pre_order stateC9 15 0 1 1 1 none 1 100).2 =
      Except.ok (newPreOrder subMain prodZeroPrice planBasic 15 1 1 1 none 1
        100) ∧
    (newPreOrder subMain prodZeroPrice planBasic 15 1 1 1 none 1
        100).total_amount ≠
      (specClaimedUnitPrice prodZeroPrice -
          specClaimedUnitPrice prodZeroPrice *
            (planBasic.discount_percentage / 100)) *
        ((newPreOrder subMain prodZeroPrice planBasic 15 1 1 1 none 1
            100).quantity : ℚ) := by
  with_unfolding_all decide

end SokoModel
